import Mathlib

/-!
Verification of the BookLogger metadata-resolution core.

The Python source (src/src/utils.py, src/src/services.py, src/src/lookups/*,
src/scraper.py) is shallowly embedded below: strings are `String`/`List Char`,
Python dicts with a fixed key set are Lean structures, `None`-returning
functions are `Option`, and uncaught Python exceptions are `Except` errors.
Network calls are modelled as oracle parameters (the response a call would
receive); call sites that hit the network more than once receive one oracle
value per call site.
-/

namespace BookLogger

/-! ### Identifier utilities, embedded from src/src/utils.py -/

/-- Numeric value of a digit character (Python `int(d)` for a digit). -/
def digitVal (c : Char) : Nat := c.toNat - 48

/-- Python `str.upper` restricted to one character (the texts considered are
ASCII, where Python and Lean uppercasing agree). -/
def pyUpper (c : Char) : Char := c.toUpper

/-- Python `str.isdigit`: non-empty and all digits. -/
def pyIsdigit (l : List Char) : Bool := !l.isEmpty && l.all Char.isDigit

/-- Python `s.startswith(p)`: the first `len(p)` characters equal `p`. -/
def pyStartsWith (l p : List Char) : Bool := l.take p.length == p

/-- Python `str.strip`: drop whitespace from both ends. -/
def pyStrip (s : String) : String :=
  String.mk ((s.data.dropWhile Char.isWhitespace).reverse.dropWhile Char.isWhitespace).reverse

/-- `clean_isbn` (utils.py line 4): `re.sub(r"[^0-9X]", "", (s or "").upper())` —
uppercase, then keep only digits and `X`. -/
def clean_isbn (s : String) : String :=
  String.mk ((s.data.map pyUpper).filter (fun c => c.isDigit || c == 'X'))

/-- The weighted sum of `validate_isbn13` (utils.py line 10):
`sum(int(d) * (1 if i % 2 == 0 else 3) for i, d in enumerate(...))`,
with `i` the enumeration index of the first argument's head. -/
def isbn13sum : List Char → Nat → Nat
  | [], _ => 0
  | c :: cs, i => digitVal c * (if i % 2 = 0 then 1 else 3) + isbn13sum cs (i + 1)

/-- `validate_isbn13` (utils.py lines 7-12, identical copy in scraper.py
lines 85-90). `isbn13[-1]` is the character at index `len - 1`. -/
def validate_isbn13 (s : String) : Bool :=
  let l := s.data
  if pyIsdigit l && l.length == 13 then
    (10 - isbn13sum (l.take 12) 0 % 10) % 10 == digitVal (l.getD (l.length - 1) ' ')
  else false

/-- The accumulating loop of `validate_isbn10` (utils.py lines 17-21):
iterates `enumerate(isbn10[:9], start=1)`, returning `none` (Python
`return False`) as soon as a non-digit is met, else the weighted total. -/
def v10total : List Char → Nat → Option Nat
  | [], _ => some 0
  | c :: cs, i =>
    if c.isDigit then (v10total cs (i + 1)).map (fun t => i * digitVal c + t)
    else none

/-- `validate_isbn10` (utils.py lines 14-24). -/
def validate_isbn10 (s : String) : Bool :=
  let l := s.data
  if l.length == 10 then
    match v10total (l.take 9) 1 with
    | none => false
    | some total =>
      let check := total % 11
      let last := l.getD (l.length - 1) ' '
      (last == 'X' && check == 10) || (last.isDigit && check == digitVal last)
  else false

/-- The weighted sum of `isbn13_to_isbn10` (utils.py line 30):
`sum((i + 1) * int(d) for i, d in enumerate(core))` with `i` starting at
the given accumulator. -/
def w10enum : List Char → Nat → Nat
  | [], _ => 0
  | c :: cs, i => (i + 1) * digitVal c + w10enum cs (i + 1)

/-- `isbn13_to_isbn10` (utils.py lines 26-33, identical copy in scraper.py). -/
def isbn13_to_isbn10 (s : String) : Option String :=
  if pyStartsWith s.data "978".data && validate_isbn13 s then
    let core := (s.data.drop 3).take 9
    let remainder := w10enum core 0 % 11
    let check := if remainder == 10 then "X" else String.mk [Char.ofNat (48 + remainder)]
    some (String.mk core ++ check)
  else none

/-- `re.findall(r"\d{13}", s)`: scan left to right; at each position, if 13
consecutive digits start there, emit them and resume after them (regex
matches are non-overlapping), else advance one position. Fuel-indexed so the
definition reduces; every step consumes at least one character, so fuel
equal to the length of the text suffices. -/
def findall13Go : Nat → List Char → List (List Char)
  | 0, _ => []
  | _, [] => []
  | fuel + 1, c :: rest =>
    if 13 ≤ (c :: rest).length && ((c :: rest).take 13).all Char.isDigit then
      ((c :: rest).take 13) :: findall13Go fuel ((c :: rest).drop 13)
    else
      findall13Go fuel rest

/-- `re.findall(r"\d{13}", s)` on the whole text. -/
def findall13 (l : List Char) : List (List Char) := findall13Go l.length l

/-- `extract_isbn13_from_text` (utils.py lines 35-43). Python's stable
`sorted` with boolean key `not startswith(("978","979"))` puts the
978/979-prefixed candidates first, preserving relative order, which is
exactly a stable partition. -/
def extract_isbn13_from_text (s : String) : Option String :=
  if s == "" then none
  else
    let cands := findall13 s.data
    let parts := cands.partition
      (fun c => pyStartsWith c "978".data || pyStartsWith c "979".data)
    ((parts.1 ++ parts.2).find? (fun c => validate_isbn13 (String.mk c))).map String.mk

/-! ### Canonical metadata record

Every `by_isbn` adapter (src/src/lookups/*) returns a dict with exactly the
keys `isbn, title, author, thumbnail, page_count, published_date, publisher,
categories, language, description, source`; `google_books._query` omits
`isbn` (added by `google_books.by_isbn`), modelled as the field holding `""`
until set. Python truthiness: a string field is falsy iff empty, the numeric
`page_count` is falsy iff `0`. -/

structure CanonicalRecord where
  isbn : String := ""
  title : String := ""
  author : String := ""
  thumbnail : String := ""
  page_count : Nat := 0
  published_date : String := ""
  publisher : String := ""
  categories : String := ""
  language : String := ""
  description : String := ""
  source : String := ""
deriving Repr, DecidableEq

/-- Fill step of the orchestrator's merge (services.py lines 35-37) for one
string-valued key: `if not rec.get(k) and v: rec[k] = v`. -/
def fillStr (a b : String) : String := if a = "" ∧ b ≠ "" then b else a

/-- Fill step for the numeric `page_count` key (0 is falsy). -/
def fillNat (a b : Nat) : Nat := if a = 0 ∧ b ≠ 0 then b else a

/-- The merge loop of `BookLookupService.by_isbn` (services.py lines 35-37):
`for k, v in enrich.items(): if not rec.get(k) and v: rec[k] = v`.
All records share the same key set, and each key is updated independently,
so the dict iteration is a field-wise fill. -/
def mergeRecord (rec enrich : CanonicalRecord) : CanonicalRecord where
  isbn := fillStr rec.isbn enrich.isbn
  title := fillStr rec.title enrich.title
  author := fillStr rec.author enrich.author
  thumbnail := fillStr rec.thumbnail enrich.thumbnail
  page_count := fillNat rec.page_count enrich.page_count
  published_date := fillStr rec.published_date enrich.published_date
  publisher := fillStr rec.publisher enrich.publisher
  categories := fillStr rec.categories enrich.categories
  language := fillStr rec.language enrich.language
  description := fillStr rec.description enrich.description
  source := fillStr rec.source enrich.source

/-- Names of the record fields, to state field-generic merge laws. -/
inductive Field
  | isbn | title | author | thumbnail | page_count | published_date
  | publisher | categories | language | description | source
deriving DecidableEq, Repr

/-- Value of a named field (string fields on the left, the numeric
`page_count` on the right). -/
def getField (r : CanonicalRecord) : Field → String ⊕ Nat
  | .isbn => .inl r.isbn
  | .title => .inl r.title
  | .author => .inl r.author
  | .thumbnail => .inl r.thumbnail
  | .page_count => .inr r.page_count
  | .published_date => .inl r.published_date
  | .publisher => .inl r.publisher
  | .categories => .inl r.categories
  | .language => .inl r.language
  | .description => .inl r.description
  | .source => .inl r.source

/-- Python truthiness of a field value. -/
def truthy : String ⊕ Nat → Bool
  | .inl s => !(s == "")
  | .inr n => !(n == 0)

/-! ### Lookup orchestrator, embedded from src/src/services.py

The four provider calls hit the network, so each call site is modelled by
the response it would receive: `gb1/idb/ol1/wf` are the priority-pass
responses of `google_books.by_isbn`, `isbndb.by_isbn`,
`openlibrary.by_isbn`, `web_fallback.web_fallback` (lines 21-30), and
`gb2/ol2` the responses of the two enrichment call sites on line 33. The
dispatch also records which adapters were invoked, in call order. -/

inductive AdapterCall | gb | idb | ol | wf
deriving DecidableEq, Repr

structure AdapterResponses where
  gb1 : Option CanonicalRecord := none
  idb : Option CanonicalRecord := none
  ol1 : Option CanonicalRecord := none
  wf : Option CanonicalRecord := none
  gb2 : Option CanonicalRecord := none
  ol2 : Option CanonicalRecord := none
deriving Repr

/-- Lines 21-38 of services.py: priority dispatch with short-circuit and the
retailer-only enrichment pass. `enrich = google_books.by_isbn(..) or
openlibrary.by_isbn(..)` evaluates the second call only when the first
returned a falsy value. -/
def lookupDispatch (o : AdapterResponses) : Option CanonicalRecord × List AdapterCall :=
  match o.gb1 with
  | some r => (some r, [.gb])
  | none =>
    match o.idb with
    | some r => (some r, [.gb, .idb])
    | none =>
      match o.ol1 with
      | some r => (some r, [.gb, .idb, .ol])
      | none =>
        match o.wf with
        | none => (none, [.gb, .idb, .ol, .wf])
        | some rec =>
          match o.gb2 with
          | some enrich => (some (mergeRecord rec enrich), [.gb, .idb, .ol, .wf, .gb])
          | none =>
            match o.ol2 with
            | some enrich => (some (mergeRecord rec enrich), [.gb, .idb, .ol, .wf, .gb, .ol])
            | none => (some rec, [.gb, .idb, .ol, .wf, .gb, .ol])

/-- Lines 12-19 of services.py: identifier normalisation before any adapter
is tried. Returns the identifier the adapters are called with, or `none`
when `by_isbn` returns early. -/
def normalizeIdent (raw : String) : Option String :=
  if raw == "" then none
  else
    let s0 := pyStrip raw
    let s1 :=
      if !(pyIsdigit s0.data && (s0.data.length == 10 || s0.data.length == 13)) then
        match extract_isbn13_from_text s0 with
        | some found => found
        | none => s0
      else s0
    let s2 := clean_isbn s1
    if s2.data.length == 13 && !validate_isbn13 s2 then none
    else if !(s2.data.length == 10 || s2.data.length == 13) then none
    else some s2

/-- `BookLookupService.by_isbn` (services.py lines 11-38): normalise, then
dispatch. When normalisation rejects, no adapter is called. -/
def by_isbn (raw : String) (o : AdapterResponses) : Option CanonicalRecord × List AdapterCall :=
  match normalizeIdent raw with
  | none => (none, [])
  | some _ => lookupDispatch o

/-! ### Retailer search and dedup engine, embedded from src/scraper.py -/

/-- The whitespace-collapsing pass of `normalize_text` (scraper.py line 72):
`re.sub(r"\s+", " ", s)` replaces each maximal whitespace run with one
space. Fuel-indexed so the definition reduces. -/
def collapseWsGo : Nat → List Char → List Char
  | 0, _ => []
  | _, [] => []
  | fuel + 1, c :: rest =>
    if c.isWhitespace then ' ' :: collapseWsGo fuel (rest.dropWhile Char.isWhitespace)
    else c :: collapseWsGo fuel rest

/-- `normalize_text` (scraper.py lines 66-73): collapse whitespace runs and
strip the ends. `html.unescape` and NFKC normalisation are the identity on
the ASCII texts modelled here. -/
def normalize_text (s : String) : String :=
  if s == "" then ""
  else pyStrip (String.mk (collapseWsGo s.data.length s.data))

/-- Python `str.lower` (ASCII). -/
def pyLower (s : String) : String := String.mk (s.data.map Char.toLower)

/-- The dict returned by `scrape_saxo` (scraper.py lines 293-305); the dedup
loop of `search_saxo_by_title` reads the `Title`, `Author` and `ISBN-13`
keys. -/
structure SaxoRecord where
  title : String := ""
  author : String := ""
  thumbnail : String := ""
  isbn13 : String := ""
  isbn10 : String := ""
  page_count : Nat := 0
  published_date : String := ""
  publisher : String := ""
  language : String := ""
  source : String := ""
  url : String := ""
deriving Repr, DecidableEq

/-- The fallback dedup key (scraper.py lines 593-594):
`normalize_text(Title).lower() + "|" + normalize_text(Author).lower()`. -/
def fallbackKey (r : SaxoRecord) : String :=
  pyLower (normalize_text r.title) ++ "|" ++ pyLower (normalize_text r.author)

/-- The record carries an ISBN the dedup loop trusts (scraper.py line 587):
`isbn and validate_isbn13(isbn)`. -/
def usableIsbn (r : SaxoRecord) : Bool :=
  !(r.isbn13 == "") && validate_isbn13 r.isbn13

/-- The scrape-and-dedup loop of `search_saxo_by_title` (scraper.py lines
561-607), processing the discovered candidate links in order. The network
and URL helpers are oracles: `normURL` is `_normalize_url`, `urlIsbn` is
`_isbn_from_saxo_url`, and `scrape url = none` models both a `scrape_saxo`
exception (caught, `continue`) and a falsy scrape result. State: `out` is
the accepted records in acceptance order, `seenUrls` and `seenIsbn` the
loop's dedup sets. -/
def dedupGo (normURL : String → String) (urlIsbn : String → Option String)
    (scrape : String → Option SaxoRecord) (maxResults : Nat) :
    List String → List SaxoRecord → List String → List String → List SaxoRecord
  | [], out, _, _ => out
  | href :: rest, out, seenUrls, seenIsbn =>
    let norm := normURL href
    if norm ∈ seenUrls then
      dedupGo normURL urlIsbn scrape maxResults rest out seenUrls seenIsbn
    else
      let seenUrls' := norm :: seenUrls
      let skipByUrlIsbn :=
        match urlIsbn norm with
        | some ui => decide (ui ∈ seenIsbn)
        | none => false
      if skipByUrlIsbn then
        dedupGo normURL urlIsbn scrape maxResults rest out seenUrls' seenIsbn
      else
        match scrape norm with
        | none => dedupGo normURL urlIsbn scrape maxResults rest out seenUrls' seenIsbn
        | some rec =>
          if rec.title = "" ∧ rec.isbn13 = "" then
            dedupGo normURL urlIsbn scrape maxResults rest out seenUrls' seenIsbn
          else if usableIsbn rec then
            if rec.isbn13 ∈ seenIsbn then
              dedupGo normURL urlIsbn scrape maxResults rest out seenUrls' seenIsbn
            else
              let out' := out ++ [rec]
              if maxResults ≤ out'.length then out'
              else dedupGo normURL urlIsbn scrape maxResults rest out' seenUrls' (rec.isbn13 :: seenIsbn)
          else if out.any (fun r => fallbackKey r == fallbackKey rec) then
            dedupGo normURL urlIsbn scrape maxResults rest out seenUrls' seenIsbn
          else
            let out' := out ++ [rec]
            if maxResults ≤ out'.length then out'
            else dedupGo normURL urlIsbn scrape maxResults rest out' seenUrls' seenIsbn

/-- The scrape-and-dedup phase of `search_saxo_by_title` applied to the
candidate links discovered by its search phase (lines 548-559, an oracle
here since it is pure network discovery). -/
def search_saxo_dedup (normURL : String → String) (urlIsbn : String → Option String)
    (scrape : String → Option SaxoRecord) (maxResults : Nat) (links : List String) :
    List SaxoRecord :=
  dedupGo normURL urlIsbn scrape maxResults links [] [] []

/-! ### Provider adapters with explicit exception behaviour

`src/src/lookups/google_books.py` and `src/src/lookups/openlibrary.py`,
embedded with Python exceptions made explicit: a function returning
`Except PyErr _` raises to its caller exactly when it yields `.error`.
The network is an oracle: each `requests.get` call site receives an
`HttpOutcome`, where `failure` is a raised `requests.RequestException`
(network error / timeout) and `response ok body` a reply whose `.json()`
parse can itself be malformed (raising on access). -/

inductive PyErr | requestErr | jsonErr
deriving DecidableEq, Repr

/-- `info.get("imageLinks", {}) or {}` then `.get("thumbnail", "")`. -/
structure ImageLinks where
  thumbnail : String := ""
deriving Repr, DecidableEq

/-- The `volumeInfo` fields read by `google_books._query` (lines 15-26). -/
structure VolumeInfo where
  title : String := ""
  authors : List String := []
  imageLinks : Option ImageLinks := none
  pageCount : Nat := 0
  publishedDate : String := ""
  publisher : String := ""
  categories : List String := []
  language : String := ""
  description : String := ""
deriving Repr, DecidableEq

/-- One element of the response's `items` list; `items[0].get("volumeInfo",
{})` defaults to an empty dict. -/
structure GItem where
  volumeInfo : Option VolumeInfo := none
deriving Repr, DecidableEq

/-- Result of `r.json()` for the Google Books endpoint: either the parse
raises, or it yields a payload whose `items` list is read. -/
inductive GBody
  | malformed
  | parsed (items : List GItem)
deriving Repr, DecidableEq

/-- Outcome of one `requests.get`: the call raises, or returns a response
with a status (`r.ok`) and a body. -/
inductive HttpOutcome
  | failure
  | response (ok : Bool) (body : GBody)
deriving Repr, DecidableEq

/-- The record literal of `google_books._query` (lines 15-26). -/
def googleRecordOfInfo (info : VolumeInfo) : CanonicalRecord where
  title := info.title
  author := String.intercalate ", " info.authors
  thumbnail := (info.imageLinks.getD {}).thumbnail
  page_count := info.pageCount
  published_date := info.publishedDate
  publisher := info.publisher
  categories := String.intercalate ", " info.categories
  language := info.language
  description := info.description
  source := "google"

/-- `google_books._query` (lines 4-26). There is no `try`/`except` in this
function: the `requests.get` call (line 8) and the `r.json()` parse
(line 11) raise to the caller. -/
def google_query (resp : HttpOutcome) : Except PyErr (Option CanonicalRecord) :=
  match resp with
  | .failure => .error .requestErr
  | .response ok body =>
    if !ok then .ok none
    else
      match body with
      | .malformed => .error .jsonErr
      | .parsed items =>
        match items with
        | [] => .ok none
        | item :: _ => .ok (some (googleRecordOfInfo (item.volumeInfo.getD {})))

/-- `google_books.by_isbn` (lines 28-33): also without any handler, so an
exception in `_query` propagates to the orchestrator. -/
def google_by_isbn (isbn : String) (resp : HttpOutcome) :
    Except PyErr (Option CanonicalRecord) :=
  match google_query resp with
  | .error e => .error e
  | .ok (some rec) => .ok (some { rec with isbn := isbn })
  | .ok none => .ok none

/-- `a.get("key")` of one entry of `data.get("authors", [])`. -/
structure OLAuthorRef where
  key : Option String := none
deriving Repr, DecidableEq

/-- Result of `ar.json()` for one author sub-lookup. -/
inductive OLAuthorBody
  | malformed
  | named (name : String)
deriving Repr, DecidableEq

/-- Outcome of one author sub-lookup `requests.get` (line 15). -/
inductive OLAuthorOutcome
  | failure
  | response (ok : Bool) (body : OLAuthorBody)
deriving Repr, DecidableEq

/-- The fields `openlibrary.by_isbn` reads from `r.json()` (lines 10-21).
`publishers` is joined when it is a list, else used as a (possibly empty)
string. -/
structure OLData where
  title : String := ""
  authors : List OLAuthorRef := []
  numberOfPages : Nat := 0
  publishDate : String := ""
  publishers : List String ⊕ String := .inl []
deriving Repr, DecidableEq

/-- Result of `r.json()` for the OpenLibrary record endpoint. -/
inductive OLBody
  | malformed
  | parsed (d : OLData)
deriving Repr, DecidableEq

/-- Outcome of the OpenLibrary record `requests.get` (line 6). -/
inductive OLOutcome
  | failure
  | response (ok : Bool) (body : OLBody)
deriving Repr, DecidableEq

/-- The author resolution loop of `openlibrary.by_isbn` (lines 11-17): one
additional request per author key; a raised exception escapes the loop (to
the enclosing handler), a non-ok response silently skips the author. -/
def olAuthors (fetch : String → OLAuthorOutcome) :
    List OLAuthorRef → Except PyErr (List String)
  | [] => .ok []
  | a :: rest =>
    match a.key with
    | none => olAuthors fetch rest
    | some k =>
      match fetch k with
      | .failure => .error .requestErr
      | .response ok body =>
        if !ok then olAuthors fetch rest
        else
          match body with
          | .malformed => .error .jsonErr
          | .named n => (olAuthors fetch rest).map (fun ns => n :: ns)

/-- Body of `openlibrary.by_isbn` before its `except Exception` handler
(lines 5-34). -/
def openlibrary_by_isbn_inner (isbn : String) (resp : OLOutcome)
    (fetch : String → OLAuthorOutcome) : Except PyErr (Option CanonicalRecord) :=
  match resp with
  | .failure => .error .requestErr
  | .response ok body =>
    if !ok then .ok none
    else
      match body with
      | .malformed => .error .jsonErr
      | .parsed d =>
        match olAuthors fetch d.authors with
        | .error e => .error e
        | .ok names =>
          .ok (some
            { isbn := isbn
              title := d.title
              author := String.intercalate ", " (names.filter (fun a => !(a == "")))
              thumbnail := ""
              page_count := d.numberOfPages
              published_date := d.publishDate
              publisher :=
                match d.publishers with
                | .inl l => String.intercalate ", " l
                | .inr p => p
              categories := ""
              language := ""
              description := ""
              source := "openlibrary" })

/-- `openlibrary.by_isbn` (lines 4-36): the whole body is wrapped in
`try ... except Exception: return None`, so every raise becomes `None` and
no exception leaves the adapter. -/
def openlibrary_by_isbn (isbn : String) (resp : OLOutcome)
    (fetch : String → OLAuthorOutcome) : Option CanonicalRecord :=
  match openlibrary_by_isbn_inner isbn resp fetch with
  | .error _ => none
  | .ok r => r

/-! ### Statement-side definitions -/

/-- The enrichment behaviour the spec describes (§4.4 step 3), stated for
comparison with `lookupDispatch`: both enrichment adapters are consulted,
Bibliographic-API fields applied first, then Library-Commons for fields
still empty. -/
def claimEnrich (rec : CanonicalRecord) (gbRec olRec : Option CanonicalRecord) :
    CanonicalRecord :=
  let r1 := match gbRec with | some e => mergeRecord rec e | none => rec
  match olRec with | some e => mergeRecord r1 e | none => r1

/-- The checksum requirement of spec §4.1 for `isValidIsbn13`: exactly 13
digits, and the check digit `(10 - total mod 10) mod 10` — where `total`
weights the first 12 digits alternately 1,3 — equals the 13th digit. -/
def Isbn13ChecksumSpec (s : String) : Prop :=
  s.data.length = 13 ∧ (∀ c ∈ s.data, c.isDigit = true) ∧
  (10 - (((List.range 12).map
      (fun i => digitVal (s.data.getD i '0') * (if i % 2 = 0 then 1 else 3))).sum) % 10) % 10
    = digitVal (s.data.getD 12 '0')

/-- Accepted records with trusted ISBNs carry distinct ISBNs. -/
def IsbnUniq (a b : SaxoRecord) : Prop :=
  usableIsbn a = true → usableIsbn b = true → a.isbn13 ≠ b.isbn13

/-- A record accepted without a trusted ISBN has a fallback key distinct
from every earlier accepted record's key. -/
def KeyUniq (a b : SaxoRecord) : Prop :=
  usableIsbn b = false → fallbackKey a ≠ fallbackKey b

/-! Concrete data for counterexamples and witnesses. -/

/-- A Bibliographic-API record as the priority pass would return it. -/
def recGPriority : CanonicalRecord := { title := "The Hunger Games", source := "google" }

/-- Retailer record with empty title and author. -/
def recWfEmpty : CanonicalRecord := { thumbnail := "https://img", source := "web(saxo)" }

/-- Enrichment record from the Bibliographic-API with a title only. -/
def recGbTitle : CanonicalRecord := { title := "T", source := "google" }

/-- Enrichment record from Library-Commons with an author only. -/
def recOlAuthor : CanonicalRecord := { author := "A", source := "openlibrary" }

/-- Responses where only the retailer produces a priority result and both
enrichment call sites would have data. -/
def oEnrich : AdapterResponses :=
  { wf := some recWfEmpty, gb2 := some recGbTitle, ol2 := some recOlAuthor }

/-- Responses where the Bibliographic-API answers at once. -/
def oPriority : AdapterResponses := { gb1 := some recGPriority }

/-- Merge example of spec §8: target with empty title, populated author. -/
def recMergeA : CanonicalRecord := { title := "", author := "X" }

/-- Merge example of spec §8: enrichment with both fields populated. -/
def recMergeB : CanonicalRecord := { title := "Y", author := "Z" }

/-- Scrape oracle: two distinct URLs yielding records with the same valid
ISBN-13 but different titles. -/
def scrapeSameIsbn : String → Option SaxoRecord := fun u =>
  if u = "u1" then some { title := "First", isbn13 := "9780439023528" }
  else if u = "u2" then some { title := "Second", isbn13 := "9780439023528" }
  else none

/-- Scrape oracle: two distinct URLs yielding ISBN-less records whose
titles and authors agree after whitespace/case normalisation. -/
def scrapeSameKey : String → Option SaxoRecord := fun u =>
  if u = "v1" then some { title := "The  Hunger Games", author := "Suzanne Collins" }
  else if u = "v2" then some { title := "the hunger games", author := "SUZANNE COLLINS" }
  else none

/-- URL normaliser oracle that leaves URLs unchanged. -/
def idNorm : String → String := fun u => u

/-- URL-ISBN extraction oracle for URLs that embed no ISBN. -/
def noUrlIsbn : String → Option String := fun _ => none

/-- Author-fetch oracle whose every request fails. -/
def olFetchFail : String → OLAuthorOutcome := fun _ => .failure

/-- The dedup guarantees of `search_saxo_by_title`'s accept loop: no
accepted record lacks both a title and an ISBN, accepted records with
trusted ISBNs have pairwise distinct ISBNs, and a record accepted without
a trusted ISBN has a fallback key distinct from every earlier accepted
record. -/
def DedupInv (l : List SaxoRecord) : Prop :=
  (∀ r ∈ l, ¬(r.title = "" ∧ r.isbn13 = "")) ∧
  List.Pairwise IsbnUniq l ∧ List.Pairwise KeyUniq l

/-! ## Theorems -/

/-- C3. The claim says no adapter lookup ever surfaces an exception on
transport failure, timeout, or malformed response. The code violates it:
`google_books._query`/`by_isbn` wrap nothing in `try`/`except` (unlike
`by_text` in the same file and every other adapter), so a raised
`requests.RequestException` or a malformed `r.json()` body propagates to
the orchestrator, while `openlibrary.by_isbn`'s catch-all maps the same
failures to `None`. -/
theorem google_by_isbn_raises_on_failure :
    google_by_isbn "9780439023528" HttpOutcome.failure = .error .requestErr ∧
    google_by_isbn "9780439023528" (.response true .malformed) = .error .jsonErr ∧
    openlibrary_by_isbn "9780439023528" OLOutcome.failure olFetchFail = none ∧
    openlibrary_by_isbn "9780439023528" (.response true .malformed) olFetchFail = none := by
  refine ⟨rfl, rfl, rfl, rfl⟩

/-- C6. The claim (and spec §8) says `extract_isbn13_from_text` applied to
`"978-0-439-02352-8 51299"` returns `"9780439023528"`. The code returns
`none` there: `re.findall(r"\d{13}", ...)` only matches 13 consecutive
digits, and the hyphens break every run. The claimed candidate is
checksum-valid, and the same text with separators removed does extract it,
so the failure is specifically the code's refusal to see through the
hyphens it is documented to tolerate. -/
theorem extract_isbn13_hyphenated_example :
    extract_isbn13_from_text "978-0-439-02352-8 51299" = none ∧
    validate_isbn13 "9780439023528" = true ∧
    extract_isbn13_from_text "978043902352851299" = some "9780439023528" := by
  refine ⟨by decide, by decide, by decide⟩

/-- C9 counterexample. The claim says every character of the input that is
not a digit or uppercase `X` is removed; but `clean_isbn` uppercases
before stripping, so a lowercase `x` — neither a digit nor uppercase `X`
— survives as `X`. -/
theorem clean_isbn_lowercase_x_counterexample :
    clean_isbn "x" = "X" ∧ ('x'.isDigit = true ∨ 'x' = 'X') = False := by
  refine ⟨by decide, by decide⟩

/-- C9 amended: every character of the result is a digit or `X`, and a
character of the input is removed exactly when its uppercased form is
neither a digit nor `X` — equivalently, `clean_isbn` uppercases the input
and then keeps, in order, exactly the digits and `X`s. -/
theorem clean_isbn_amended (raw : String) :
    (∀ c ∈ (clean_isbn raw).data, c.isDigit = true ∨ c = 'X') ∧
    (clean_isbn raw).data
      = (raw.data.map pyUpper).filter (fun c => c.isDigit || c == 'X') ∧
    (clean_isbn raw).data.Sublist (raw.data.map pyUpper) := by
  refine ⟨?_, rfl, ?_⟩
  · intro c hc
    have h := List.of_mem_filter (p := fun c => c.isDigit || c == 'X') hc
    rcases Bool.or_eq_true .. |>.mp h with h1 | h1
    · exact Or.inl h1
    · exact Or.inr (by simpa using h1)
  · exact List.filter_sublist _

/-- C9 amended, witness at the counterexample input: the lowercase `x`
uppercases to `X` and is kept. -/
theorem clean_isbn_amended_witness :
    (clean_isbn "x").data
      = (("x" : String).data.map pyUpper).filter (fun c => c.isDigit || c == 'X') :=
  (clean_isbn_amended "x").2.1

/-- C8 counterexample. The claim (and spec §8) says
`isbn13_to_isbn10("9780439023528")` equals `"0439023528"`. The code
computes the genuine ISBN-10 check character — weighted sum
`1·0+2·4+3·3+4·9+5·0+6·2+7·3+8·5+9·2 = 144 ≡ 1 (mod 11)` — and returns
`"0439023521"`; the spec's expected value wrongly reuses the ISBN-13 check
digit `8`. -/
theorem isbn13_to_isbn10_example_counterexample :
    isbn13_to_isbn10 "9780439023528" ≠ some "0439023528" ∧
    isbn13_to_isbn10 "9780439023528" = some "0439023521" := by
  refine ⟨by decide, by decide⟩

lemma fill_str_cases (a b : String) :
    ((!(a == "")) = true → fillStr a b = a) ∧
    ((!(a == "")) = false → (!(b == "")) = true → fillStr a b = b) ∧
    ((!(a == "")) = false → (!(b == "")) = false → fillStr a b = a) := by
  refine ⟨fun h => ?_, fun h h2 => ?_, fun h h2 => ?_⟩
  · have ha : a ≠ "" := by simpa using h
    simp [fillStr, ha]
  · have ha : a = "" := by simpa using h
    have hb : b ≠ "" := by simpa using h2
    simp [fillStr, ha, hb]
  · have ha : a = "" := by simpa using h
    have hb : b = "" := by simpa using h2
    simp [fillStr, ha, hb]

lemma fill_nat_cases (a b : Nat) :
    ((!(a == 0)) = true → fillNat a b = a) ∧
    ((!(a == 0)) = false → (!(b == 0)) = true → fillNat a b = b) ∧
    ((!(a == 0)) = false → (!(b == 0)) = false → fillNat a b = a) := by
  refine ⟨fun h => ?_, fun h h2 => ?_, fun h h2 => ?_⟩
  · have ha : a ≠ 0 := by simpa using h
    simp [fillNat, ha]
  · have ha : a = 0 := by simpa using h
    have hb : b ≠ 0 := by simpa using h2
    simp [fillNat, ha, hb]
  · have ha : a = 0 := by simpa using h
    have hb : b = 0 := by simpa using h2
    simp [fillNat, ha, hb]

lemma merge_field_cases (A B : CanonicalRecord) (f : Field) :
    (truthy (getField A f) = true → getField (mergeRecord A B) f = getField A f) ∧
    (truthy (getField A f) = false → truthy (getField B f) = true →
      getField (mergeRecord A B) f = getField B f) ∧
    (truthy (getField A f) = false → truthy (getField B f) = false →
      getField (mergeRecord A B) f = getField A f) := by
  cases f <;> simp only [getField, mergeRecord, truthy] <;>
    first
      | exact ⟨fun h => congrArg Sum.inl ((fill_str_cases _ _).1 h),
               fun h h2 => congrArg Sum.inl ((fill_str_cases _ _).2.1 h h2),
               fun h h2 => congrArg Sum.inl ((fill_str_cases _ _).2.2 h h2)⟩
      | exact ⟨fun h => congrArg Sum.inr ((fill_nat_cases _ _).1 h),
               fun h h2 => congrArg Sum.inr ((fill_nat_cases _ _).2.1 h h2),
               fun h h2 => congrArg Sum.inr ((fill_nat_cases _ _).2.2 h h2)⟩

/-- C5. The orchestrator's field-by-field merge is fill-only: a field of
the target record is taken from the enrichment record exactly when the
target's value is empty/zero and the enrichment's is non-empty; in every
other case the target's value stands. In particular, merging a record with
`title="", author="X"` against one with `title="Y", author="Z"` yields
`title="Y", author="X"`. -/
theorem merge_fill_only (A B : CanonicalRecord) (f : Field) :
    (truthy (getField A f) = true → getField (mergeRecord A B) f = getField A f) ∧
    (truthy (getField A f) = false → truthy (getField B f) = true →
      getField (mergeRecord A B) f = getField B f) ∧
    (truthy (getField A f) = false → truthy (getField B f) = false →
      getField (mergeRecord A B) f = getField A f) ∧
    (mergeRecord recMergeA recMergeB).title = "Y" ∧
    (mergeRecord recMergeA recMergeB).author = "X" :=
  ⟨(merge_field_cases A B f).1, (merge_field_cases A B f).2.1,
   (merge_field_cases A B f).2.2, by decide, by decide⟩

/-- C5 witness: at the spec's own example, the populated `author` is kept
and the empty `title` is filled. -/
theorem merge_fill_only_witness :
    getField (mergeRecord recMergeA recMergeB) Field.author
        = getField recMergeA Field.author ∧
    getField (mergeRecord recMergeA recMergeB) Field.title
        = getField recMergeB Field.title :=
  ⟨(merge_fill_only recMergeA recMergeB Field.author).1 (by decide),
   (merge_fill_only recMergeA recMergeB Field.title).2.1 (by decide) (by decide)⟩

/-- C1. For an identifier that survives normalisation, `by_isbn` tries the
adapters in the order google_books, isbndb, openlibrary, web_fallback and
returns the first non-`None` result — untouched, with no lower-priority
adapter called (the call trace stops at the winner). -/
theorem by_isbn_priority_order (raw s : String) (o : AdapterResponses)
    (h : normalizeIdent raw = some s) :
    (∀ r, o.gb1 = some r → by_isbn raw o = (some r, [AdapterCall.gb])) ∧
    (o.gb1 = none → ∀ r, o.idb = some r →
      by_isbn raw o = (some r, [AdapterCall.gb, AdapterCall.idb])) ∧
    (o.gb1 = none → o.idb = none → ∀ r, o.ol1 = some r →
      by_isbn raw o = (some r, [AdapterCall.gb, AdapterCall.idb, AdapterCall.ol])) := by
  refine ⟨fun r h1 => ?_, fun h1 r h2 => ?_, fun h1 h2 r h3 => ?_⟩ <;>
    simp [by_isbn, h, lookupDispatch, *]

/-- C1 witness: a stubbed Bibliographic-API record short-circuits the
dispatch and is returned untouched after a single adapter call. -/
theorem by_isbn_priority_order_witness :
    by_isbn "9780439023528" oPriority = (some recGPriority, [AdapterCall.gb]) :=
  (by_isbn_priority_order "9780439023528" "9780439023528" oPriority (by decide)).1
    recGPriority rfl

/-- C4 counterexample. The claim says the enrichment pass calls both the
Bibliographic-API and the Library-Commons adapters and fills still-empty
fields from the latter. In the code, `enrich = google_books.by_isbn(..) or
openlibrary.by_isbn(..)` short-circuits: when the Bibliographic-API
enrichment call returns a record, openlibrary is never called (one `ol`
call in the whole trace, from the priority pass), and the retailer
record's still-empty `author` stays empty even though the Library-Commons
record would have supplied one. -/
theorem by_isbn_enrichment_counterexample :
    (by_isbn "9780439023528" oEnrich).2.count AdapterCall.ol = 1 ∧
    (by_isbn "9780439023528" oEnrich).1 = some (mergeRecord recWfEmpty recGbTitle) ∧
    (mergeRecord recWfEmpty recGbTitle).author = "" ∧
    recOlAuthor.author = "A" ∧
    (by_isbn "9780439023528" oEnrich).1
      ≠ some (claimEnrich recWfEmpty (some recGbTitle) (some recOlAuthor)) := by
  refine ⟨by decide, by decide, by decide, by decide, by decide⟩

/-- C4 amended: when only the Retailer-HTML adapter produced a result, the
enrichment pass calls the Bibliographic-API adapter and, only if that
returns `None`, the Library-Commons adapter; empty fields of the retailer
record are then filled from the single enrichment record so obtained. -/
theorem by_isbn_enrichment_amended (raw s : String) (o : AdapterResponses)
    (h : normalizeIdent raw = some s) (h1 : o.gb1 = none) (h2 : o.idb = none)
    (h3 : o.ol1 = none) (rec : CanonicalRecord) (h4 : o.wf = some rec) :
    (∀ e, o.gb2 = some e → by_isbn raw o = (some (mergeRecord rec e),
      [AdapterCall.gb, AdapterCall.idb, AdapterCall.ol, AdapterCall.wf, AdapterCall.gb])) ∧
    (o.gb2 = none → ∀ e, o.ol2 = some e → by_isbn raw o = (some (mergeRecord rec e),
      [AdapterCall.gb, AdapterCall.idb, AdapterCall.ol, AdapterCall.wf, AdapterCall.gb,
       AdapterCall.ol])) ∧
    (o.gb2 = none → o.ol2 = none → by_isbn raw o = (some rec,
      [AdapterCall.gb, AdapterCall.idb, AdapterCall.ol, AdapterCall.wf, AdapterCall.gb,
       AdapterCall.ol])) := by
  refine ⟨fun e h5 => ?_, fun h5 e h6 => ?_, fun h5 h6 => ?_⟩ <;>
    simp [by_isbn, h, lookupDispatch, *]

/-- C4 amended, witness: with the Bibliographic-API enrichment response
present, the result is the retailer record filled from it alone. -/
theorem by_isbn_enrichment_amended_witness :
    by_isbn "9780439023528" oEnrich = (some (mergeRecord recWfEmpty recGbTitle),
      [AdapterCall.gb, AdapterCall.idb, AdapterCall.ol, AdapterCall.wf, AdapterCall.gb]) :=
  (by_isbn_enrichment_amended "9780439023528" "9780439023528" oEnrich (by decide)
    rfl rfl rfl recWfEmpty rfl).1 recGbTitle rfl

lemma isbn13sum_eq (l : List Char) : ∀ i, isbn13sum l i =
    ((List.range l.length).map
      (fun j => digitVal (l.getD j '0') * (if (i + j) % 2 = 0 then 1 else 3))).sum := by
  induction l with
  | nil => intro i; simp [isbn13sum]
  | cons c cs ih =>
    intro i
    rw [isbn13sum, List.length_cons, List.range_succ_eq_map, List.map_cons, List.sum_cons,
      List.map_map]
    have h0 : digitVal ((c :: cs).getD 0 '0') * (if (i + 0) % 2 = 0 then 1 else 3)
        = digitVal c * (if i % 2 = 0 then 1 else 3) := by
      simp [List.getD_cons_zero]
    rw [h0, ih (i + 1)]
    have h1 : ∀ j ∈ List.range cs.length,
        ((fun j => digitVal ((c :: cs).getD j '0') * (if (i + j) % 2 = 0 then 1 else 3)) ∘
          Nat.succ) j
        = digitVal (cs.getD j '0') * (if (i + 1 + j) % 2 = 0 then 1 else 3) := by
      intro j _
      have : i + (j + 1) = i + 1 + j := by omega
      simp [Function.comp, List.getD_cons_succ, this]
    rw [List.map_congr_left h1]

lemma pyIsdigit_iff (l : List Char) :
    pyIsdigit l = true ↔ l ≠ [] ∧ ∀ c ∈ l, c.isDigit = true := by
  simp [pyIsdigit, List.all_eq_true, List.isEmpty_iff]

/-- C7. `validate_isbn13` returns `true` exactly on strings of 13 digits
whose weighted checksum — weights 1 and 3 alternating over the first 12
digits, check digit `(10 − total mod 10) mod 10` — equals the 13th
digit. -/
theorem validate_isbn13_iff (s : String) :
    validate_isbn13 s = true ↔ Isbn13ChecksumSpec s := by
  unfold validate_isbn13 Isbn13ChecksumSpec
  by_cases hc : (pyIsdigit s.data && s.data.length == 13) = true
  · have hd := (pyIsdigit_iff s.data).mp (Bool.and_eq_true .. |>.mp hc).1
    have hl : s.data.length = 13 := by
      have := (Bool.and_eq_true .. |>.mp hc).2
      simpa using this
    have hsum : isbn13sum (s.data.take 12) 0 =
        ((List.range 12).map
          (fun j => digitVal (s.data.getD j '0') * (if j % 2 = 0 then 1 else 3))).sum := by
      rw [isbn13sum_eq]
      have ht : (s.data.take 12).length = 12 := by simp [hl]
      rw [ht]
      refine congrArg List.sum (List.map_congr_left ?_)
      intro j hj
      have hj12 : j < 12 := List.mem_range.mp hj
      have hjl : j < s.data.length := by omega
      have hjt : j < (s.data.take 12).length := by simp [hl]; omega
      rw [List.getD_eq_getElem _ _ hjt, List.getD_eq_getElem _ _ hjl]
      simp [List.getElem_take]
    have hlast : s.data.getD (s.data.length - 1) ' ' = s.data.getD 12 '0' := by
      have h1 : (12 : Nat) < s.data.length := by omega
      rw [hl]
      rw [List.getD_eq_getElem _ _ h1, List.getD_eq_getElem _ _ h1]
    simp only [hc, if_true, hsum, hlast, beq_iff_eq]
    constructor
    · intro h; exact ⟨hl, hd.2, h⟩
    · intro h; exact h.2.2
  · simp only [hc]
    simp only [Bool.if_false_right, Bool.and_eq_true] at *
    constructor
    · intro h; exact absurd h (by simp)
    · intro h
      exfalso
      refine hc ⟨(pyIsdigit_iff s.data).mpr ⟨?_, h.2.1⟩, by simp [h.1]⟩
      intro hnil
      rw [hnil] at h
      exact absurd h.1 (by simp)

lemma validate13_parts (s : String) (h : validate_isbn13 s = true) :
    s.data.length = 13 ∧ ∀ c ∈ s.data, c.isDigit = true := by
  unfold validate_isbn13 at h
  by_cases hc : (pyIsdigit s.data && s.data.length == 13) = true
  · obtain ⟨h1, h2⟩ := Bool.and_eq_true .. |>.mp hc
    exact ⟨by simpa using h2, ((pyIsdigit_iff s.data).mp h1).2⟩
  · rw [if_neg hc] at h
    exact absurd h (by simp)

lemma string_data_append (a : List Char) (b : String) :
    (String.mk a ++ b).data = a ++ b.data := by
  cases b; rfl

lemma take_append_len {α : Type} (l₁ l₂ : List α) (n : Nat) (h : l₁.length = n) :
    (l₁ ++ l₂).take n = l₁ := by
  subst h; simp

lemma v10total_digits : ∀ (l : List Char) (i : Nat), (∀ c ∈ l, c.isDigit = true) →
    v10total l (i + 1) = some (w10enum l i) := by
  intro l
  induction l with
  | nil => intro i _; rfl
  | cons c cs ih =>
    intro i h
    have hc : c.isDigit = true := h c (by simp)
    rw [v10total, w10enum, if_pos hc, ih (i + 1) (fun x hx => h x (by simp [hx]))]
    rfl

/-- C8. `isbn13_to_isbn10` yields a result only for valid `978`-prefixed
inputs; on `979`-prefixed inputs (valid or not) it yields `none`; and a
result is always ten characters whose first nine are the input's middle
nine digits. The concrete conversion of `"9780439023528"` is
`"0439023521"`, the genuine ISBN-10, not the claim's `"0439023528"`. -/
theorem isbn13_to_isbn10_spec :
    (∀ s t, isbn13_to_isbn10 s = some t →
      pyStartsWith s.data "978".data = true ∧ validate_isbn13 s = true) ∧
    (∀ s, validate_isbn13 s = true → pyStartsWith s.data "979".data = true →
      isbn13_to_isbn10 s = none) ∧
    (∀ s t, isbn13_to_isbn10 s = some t →
      t.data.length = 10 ∧ t.data.take 9 = (s.data.drop 3).take 9) ∧
    isbn13_to_isbn10 "9780439023528" = some "0439023521" := by
  have hguard : ∀ s, isbn13_to_isbn10 s ≠ none →
      pyStartsWith s.data "978".data = true ∧ validate_isbn13 s = true := by
    intro s hs
    by_cases hc : (pyStartsWith s.data "978".data && validate_isbn13 s) = true
    · exact Bool.and_eq_true .. |>.mp hc
    · exfalso; refine hs ?_; unfold isbn13_to_isbn10; rw [if_neg hc]
  refine ⟨fun s t ht => hguard s (by simp [ht]), ?_, fun s t ht => ?_, by decide⟩
  · intro s _ h979
    have h8 : pyStartsWith s.data "978".data = false := by
      simp only [pyStartsWith, beq_iff_eq] at h979 ⊢
      rw [show ("979".data.length) = ("978".data.length) from rfl] at h979
      rw [h979]
      decide
    unfold isbn13_to_isbn10
    rw [if_neg (by simp [h8])]
  · obtain ⟨h978, hv⟩ := hguard s (by simp [ht])
    obtain ⟨hlen, _⟩ := validate13_parts s hv
    have hc : (pyStartsWith s.data "978".data && validate_isbn13 s) = true := by
      simp [h978, hv]
    unfold isbn13_to_isbn10 at ht
    rw [if_pos hc] at ht
    have hclen : ((s.data.drop 3).take 9).length = 9 := by
      simp [hlen]
    have htd : t.data = (s.data.drop 3).take 9 ++
        (if (w10enum ((s.data.drop 3).take 9) 0 % 11) == 10 then ("X" : String)
         else String.mk [Char.ofNat (48 + w10enum ((s.data.drop 3).take 9) 0 % 11)]).data := by
      have := Option.some.inj ht
      rw [← this, string_data_append]
    have hckd : (if (w10enum ((s.data.drop 3).take 9) 0 % 11) == 10 then ("X" : String)
        else String.mk [Char.ofNat (48 + w10enum ((s.data.drop 3).take 9) 0 % 11)]).data.length
        = 1 := by
      split <;> rfl
    constructor
    · rw [htd, List.length_append, hclen, hckd]
    · rw [htd]
      exact take_append_len _ _ 9 hclen

/-- C8 witness: the hypotheses of the guard and `979` clauses hold at
concrete valid ISBN-13s. -/
theorem isbn13_to_isbn10_spec_witness :
    (pyStartsWith ("9780439023528" : String).data "978".data = true ∧
      validate_isbn13 "9780439023528" = true) ∧
    isbn13_to_isbn10 "9790000000001" = none ∧
    ("0439023521" : String).data.length = 10 := by
  refine ⟨isbn13_to_isbn10_spec.1 "9780439023528" "0439023521" (by decide),
    isbn13_to_isbn10_spec.2.1 "9790000000001" (by decide) (by decide),
    (isbn13_to_isbn10_spec.2.2.1 "9780439023528" "0439023521" (by decide)).1⟩

lemma charOfDigit (r : Nat) (h : r ≤ 9) :
    (Char.ofNat (48 + r)).isDigit = true ∧ digitVal (Char.ofNat (48 + r)) = r := by
  interval_cases r <;> exact ⟨by decide, by decide⟩

/-- C10. For every valid `978`-prefixed ISBN-13, `isbn13_to_isbn10` returns
a 10-character string accepted by `validate_isbn10`: the check character
computed from weights 1..9 mod 11 (10 rendered `X`) is exactly what the
validator recomputes. -/
theorem isbn13_to_isbn10_sound (s : String)
    (h978 : pyStartsWith s.data "978".data = true) (hv : validate_isbn13 s = true) :
    ∃ t, isbn13_to_isbn10 s = some t ∧ t.data.length = 10 ∧ validate_isbn10 t = true := by
  obtain ⟨hlen, hdig⟩ := validate13_parts s hv
  have hc : (pyStartsWith s.data "978".data && validate_isbn13 s) = true := by
    simp [h978, hv]
  have hclen : ((s.data.drop 3).take 9).length = 9 := by simp [hlen]
  have hcdig : ∀ c ∈ (s.data.drop 3).take 9, c.isDigit = true := fun c hcm =>
    hdig c (List.drop_subset 3 s.data (List.take_subset 9 _ hcm))
  have hv10 : v10total ((s.data.drop 3).take 9) 1
      = some (w10enum ((s.data.drop 3).take 9) 0) :=
    v10total_digits _ 0 hcdig
  set core := (s.data.drop 3).take 9 with hcoredef
  set r := w10enum core 0 % 11 with hrdef
  have hr : r < 11 := Nat.mod_lt _ (by norm_num)
  set chk : String := if (r == 10) then ("X" : String)
      else String.mk [Char.ofNat (48 + r)] with hchk
  have hchkd : ∃ ch, chk.data = [ch] ∧
      ((ch == 'X' && (r == 10)) || (ch.isDigit && (r == digitVal ch))) = true := by
    by_cases h10 : r = 10
    · refine ⟨'X', ?_, ?_⟩ <;> simp [hchk, h10]
    · have h9 : r ≤ 9 := by omega
      obtain ⟨hd, hval⟩ := charOfDigit r h9
      refine ⟨Char.ofNat (48 + r), ?_, ?_⟩
      · simp [hchk, h10]
      · simp [hd, hval, h10]
  obtain ⟨ch, hchd, hchok⟩ := hchkd
  refine ⟨String.mk core ++ chk, ?_, ?_, ?_⟩
  · unfold isbn13_to_isbn10
    rw [if_pos hc]
  · rw [string_data_append, hchd, List.length_append, hclen]
    rfl
  · unfold validate_isbn10
    rw [string_data_append, hchd]
    have hl10 : (core ++ [ch]).length = 10 := by
      rw [List.length_append, hclen]; rfl
    have htk : (core ++ [ch]).take 9 = core := take_append_len _ _ 9 hclen
    have hlast : (core ++ [ch]).getD 9 ' ' = ch := by
      have h9le : core.length ≤ 9 := by omega
      rw [List.getD_append_right _ _ _ _ h9le, hclen]
      rfl
    simp only [hl10, htk, hv10, hlast]
    simpa [← hrdef] using hchok

/-- C10 witness: the conversion of a concrete valid `978` ISBN-13 passes
the ISBN-10 validator. -/
theorem isbn13_to_isbn10_sound_witness :
    ∃ t, isbn13_to_isbn10 "9780439023528" = some t ∧ t.data.length = 10 ∧
      validate_isbn10 t = true :=
  isbn13_to_isbn10_sound "9780439023528" (by decide) (by decide)

lemma dedupInv_append_isbn (out : List SaxoRecord) (seenIsbn : List String)
    (rec : SaxoRecord) (hinv : DedupInv out)
    (h2 : ∀ r ∈ out, usableIsbn r = true → r.isbn13 ∈ seenIsbn)
    (hdrop : ¬(rec.title = "" ∧ rec.isbn13 = ""))
    (husable : usableIsbn rec = true) (hseen : rec.isbn13 ∉ seenIsbn) :
    DedupInv (out ++ [rec]) ∧
    (∀ r ∈ out ++ [rec], usableIsbn r = true → r.isbn13 ∈ rec.isbn13 :: seenIsbn) := by
  obtain ⟨hI1, hI3, hI4⟩ := hinv
  refine ⟨⟨?_, ?_, ?_⟩, ?_⟩
  · intro r hr
    rcases List.mem_append.mp hr with h | h
    · exact hI1 r h
    · rw [List.mem_singleton.mp h]; exact hdrop
  · rw [List.pairwise_append]
    refine ⟨hI3, List.pairwise_singleton _ _, ?_⟩
    intro a ha b hb hau hbu
    rw [List.mem_singleton.mp hb]
    intro heq
    exact hseen (heq ▸ h2 a ha hau)
  · rw [List.pairwise_append]
    refine ⟨hI4, List.pairwise_singleton _ _, ?_⟩
    intro a _ b hb hbu
    rw [List.mem_singleton.mp hb] at hbu
    exact absurd husable (by simp [hbu])
  · intro r hr hu
    rcases List.mem_append.mp hr with h | h
    · exact List.mem_cons_of_mem _ (h2 r h hu)
    · rw [List.mem_singleton.mp h]; exact List.mem_cons_self _ _

lemma dedupInv_append_fallback (out : List SaxoRecord) (seenIsbn : List String)
    (rec : SaxoRecord) (hinv : DedupInv out)
    (h2 : ∀ r ∈ out, usableIsbn r = true → r.isbn13 ∈ seenIsbn)
    (hdrop : ¬(rec.title = "" ∧ rec.isbn13 = "")) (husable : usableIsbn rec = false)
    (hany : out.any (fun r => fallbackKey r == fallbackKey rec) = false) :
    DedupInv (out ++ [rec]) ∧
    (∀ r ∈ out ++ [rec], usableIsbn r = true → r.isbn13 ∈ seenIsbn) := by
  obtain ⟨hI1, hI3, hI4⟩ := hinv
  have hkeys : ∀ a ∈ out, fallbackKey a ≠ fallbackKey rec := by
    intro a ha heq
    have h : (out.any fun r => fallbackKey r == fallbackKey rec) = true := by
      refine List.any_eq_true.mpr ⟨a, ha, ?_⟩
      simp [heq]
    rw [hany] at h
    exact Bool.false_ne_true h
  refine ⟨⟨?_, ?_, ?_⟩, ?_⟩
  · intro r hr
    rcases List.mem_append.mp hr with h | h
    · exact hI1 r h
    · rw [List.mem_singleton.mp h]; exact hdrop
  · rw [List.pairwise_append]
    refine ⟨hI3, List.pairwise_singleton _ _, ?_⟩
    intro a _ b hb _ hbu
    rw [List.mem_singleton.mp hb] at hbu
    exact absurd hbu (by simp [husable])
  · rw [List.pairwise_append]
    refine ⟨hI4, List.pairwise_singleton _ _, ?_⟩
    intro a ha b hb _
    rw [List.mem_singleton.mp hb]
    exact hkeys a ha
  · intro r hr hu
    rcases List.mem_append.mp hr with h | h
    · exact h2 r h hu
    · rw [List.mem_singleton.mp h] at hu
      exact absurd hu (by simp [husable])

lemma dedupGo_inv (normURL : String → String) (urlIsbn : String → Option String)
    (scrape : String → Option SaxoRecord) (maxResults : Nat) :
    ∀ (links : List String) (out : List SaxoRecord) (seenUrls seenIsbn : List String),
      DedupInv out →
      (∀ r ∈ out, usableIsbn r = true → r.isbn13 ∈ seenIsbn) →
      DedupInv (dedupGo normURL urlIsbn scrape maxResults links out seenUrls seenIsbn) := by
  intro links
  induction links with
  | nil =>
    intro out seenUrls seenIsbn hinv _
    simpa [dedupGo] using hinv
  | cons href rest ih =>
    intro out seenUrls seenIsbn hinv h2
    rw [dedupGo]
    by_cases hmem : normURL href ∈ seenUrls
    · rw [if_pos hmem]; exact ih out seenUrls seenIsbn hinv h2
    · rw [if_neg hmem]
      cases hui : urlIsbn (normURL href) with
      | some ui =>
        by_cases huis : ui ∈ seenIsbn
        · rw [if_pos (by simp [huis])]
          exact ih out _ seenIsbn hinv h2
        · rw [if_neg (by simp [huis])]
          cases hscr : scrape (normURL href) with
          | none => exact ih out _ seenIsbn hinv h2
          | some rec =>
            dsimp only
            by_cases hdrop : rec.title = "" ∧ rec.isbn13 = ""
            · rw [if_pos hdrop]; exact ih out _ seenIsbn hinv h2
            · rw [if_neg hdrop]
              by_cases husable : usableIsbn rec = true
              · rw [if_pos husable]
                by_cases hseen : rec.isbn13 ∈ seenIsbn
                · rw [if_pos hseen]; exact ih out _ seenIsbn hinv h2
                · rw [if_neg hseen]
                  obtain ⟨hinv', h2'⟩ :=
                    dedupInv_append_isbn out seenIsbn rec hinv h2 hdrop husable hseen
                  by_cases hmax : maxResults ≤ (out ++ [rec]).length
                  · rw [if_pos hmax]; exact hinv'
                  · rw [if_neg hmax]; exact ih _ _ _ hinv' h2'
              · rw [if_neg husable]
                by_cases hany : out.any (fun r => fallbackKey r == fallbackKey rec) = true
                · rw [if_pos hany]; exact ih out _ seenIsbn hinv h2
                · rw [if_neg hany]
                  obtain ⟨hinv', h2'⟩ := dedupInv_append_fallback out seenIsbn rec hinv h2
                    hdrop (Bool.not_eq_true _ ▸ husable) (Bool.not_eq_true _ ▸ hany)
                  by_cases hmax : maxResults ≤ (out ++ [rec]).length
                  · rw [if_pos hmax]; exact hinv'
                  · rw [if_neg hmax]; exact ih _ _ _ hinv' h2'
      | none =>
        rw [if_neg (by simp)]
        cases hscr : scrape (normURL href) with
        | none => exact ih out _ seenIsbn hinv h2
        | some rec =>
          dsimp only
          by_cases hdrop : rec.title = "" ∧ rec.isbn13 = ""
          · rw [if_pos hdrop]; exact ih out _ seenIsbn hinv h2
          · rw [if_neg hdrop]
            by_cases husable : usableIsbn rec = true
            · rw [if_pos husable]
              by_cases hseen : rec.isbn13 ∈ seenIsbn
              · rw [if_pos hseen]; exact ih out _ seenIsbn hinv h2
              · rw [if_neg hseen]
                obtain ⟨hinv', h2'⟩ :=
                  dedupInv_append_isbn out seenIsbn rec hinv h2 hdrop husable hseen
                by_cases hmax : maxResults ≤ (out ++ [rec]).length
                · rw [if_pos hmax]; exact hinv'
                · rw [if_neg hmax]; exact ih _ _ _ hinv' h2'
            · rw [if_neg husable]
              by_cases hany : out.any (fun r => fallbackKey r == fallbackKey rec) = true
              · rw [if_pos hany]; exact ih out _ seenIsbn hinv h2
              · rw [if_neg hany]
                obtain ⟨hinv', h2'⟩ := dedupInv_append_fallback out seenIsbn rec hinv h2
                  hdrop (Bool.not_eq_true _ ▸ husable) (Bool.not_eq_true _ ▸ hany)
                by_cases hmax : maxResults ≤ (out ++ [rec]).length
                · rw [if_pos hmax]; exact hinv'
                · rw [if_neg hmax]; exact ih _ _ _ hinv' h2'

/-- C2. In a single call of the scrape-and-dedup loop: every accepted
record has a non-empty title or ISBN (records lacking both are silently
dropped); two accepted records never share a validated ISBN-13 (first in
scrape order wins); and a record accepted without a validated ISBN never
shares its lowercased whitespace-normalised `title|author` key with any
other accepted record. Concretely: two URLs scraping to the same valid
ISBN-13 yield exactly the first record, and two ISBN-less URLs with keys
equal up to case and whitespace yield exactly the first record. -/
theorem search_saxo_dedup_unique (normURL : String → String)
    (urlIsbn : String → Option String) (scrape : String → Option SaxoRecord)
    (maxResults : Nat) (links : List String) :
    DedupInv (search_saxo_dedup normURL urlIsbn scrape maxResults links) ∧
    search_saxo_dedup idNorm noUrlIsbn scrapeSameIsbn 20 ["u1", "u2"]
      = [{ title := "First", isbn13 := "9780439023528" }] ∧
    search_saxo_dedup idNorm noUrlIsbn scrapeSameKey 20 ["v1", "v2"]
      = [{ title := "The  Hunger Games", author := "Suzanne Collins" }] := by
  refine ⟨?_, by decide, by decide⟩
  exact dedupGo_inv normURL urlIsbn scrape maxResults links [] [] []
    ⟨by simp, List.Pairwise.nil, List.Pairwise.nil⟩ (by simp)

/-- C2 witness: the dedup guarantees instantiated at the concrete
same-ISBN scenario. -/
theorem search_saxo_dedup_unique_witness :
    DedupInv (search_saxo_dedup idNorm noUrlIsbn scrapeSameIsbn 20 ["u1", "u2"]) :=
  (search_saxo_dedup_unique idNorm noUrlIsbn scrapeSameIsbn 20 ["u1", "u2"]).1

/-- C7 witness: the equivalence instantiated at a concrete valid ISBN-13. -/
theorem validate_isbn13_iff_witness :
    validate_isbn13 "9780439023528" = true ↔ Isbn13ChecksumSpec "9780439023528" :=
  validate_isbn13_iff "9780439023528"

end BookLogger
